import Mathlib

/-!
Shallow embedding of the Portfolio WebGL example repository.

The vector and matrix definitions embed the glMatrix library calls that the
source delegates to (vec3.subtract, vec3.cross, vec3.normalize,
vec3.scaleAndAdd, vec3.transformMat4, mat4.rotate applied to the identity,
mat4.lookAt), with the JavaScript double-precision numbers modelled as exact
reals.  Camera, Scene, Model, Material and renderer follow
src/examples/Tree/scripts/app.js and src/unnamed/part_000; the deferred
lighting fragment shader follows src/examples/practice/scripts/gl-scene.js.
-/

namespace Portfolio

/-- A 3-component vector of reals, the model of a glMatrix vec3. -/
@[ext]
structure Vec3 where
  x : ℝ
  y : ℝ
  z : ℝ

/-- The zero vector, vec3.create(). -/
def Vec3.zero : Vec3 := ⟨0, 0, 0⟩

/-- vec3.add. -/
def Vec3.add (a b : Vec3) : Vec3 := ⟨a.x + b.x, a.y + b.y, a.z + b.z⟩

/-- vec3.subtract. -/
def Vec3.sub (a b : Vec3) : Vec3 := ⟨a.x - b.x, a.y - b.y, a.z - b.z⟩

/-- Componentwise scaling, vec3.scale. -/
def Vec3.smul (c : ℝ) (a : Vec3) : Vec3 := ⟨c * a.x, c * a.y, c * a.z⟩

/-- vec3.cross. -/
def Vec3.cross (a b : Vec3) : Vec3 :=
  ⟨a.y * b.z - a.z * b.y, a.z * b.x - a.x * b.z, a.x * b.y - a.y * b.x⟩

/-- vec3.dot. -/
def Vec3.dot (a b : Vec3) : ℝ := a.x * b.x + a.y * b.y + a.z * b.z

/-- The squared length x*x + y*y + z*z computed inside vec3.normalize. -/
def Vec3.norm2 (a : Vec3) : ℝ := a.x * a.x + a.y * a.y + a.z * a.z

/-- vec3.length, Math.hypot of the three components. -/
noncomputable def Vec3.len (a : Vec3) : ℝ := Real.sqrt a.norm2

/-- vec3.normalize: len = x*x+y*y+z*z; if (len > 0) len = 1/sqrt(len);
out = a scaled by len.  When the squared length is 0 the source multiplies
by the unchanged len, which is 0 there. -/
noncomputable def Vec3.normalize (a : Vec3) : Vec3 :=
  if 0 < a.norm2 then Vec3.smul (1 / Real.sqrt a.norm2) a else Vec3.smul a.norm2 a

/-- vec3.scaleAndAdd: out = a + b * scale. -/
def Vec3.scaleAndAdd (a b : Vec3) (s : ℝ) : Vec3 :=
  ⟨a.x + b.x * s, a.y + b.y * s, a.z + b.z * s⟩

/-- A 4x4 matrix with glMatrix column-major element order e0..e15. -/
@[ext]
structure Mat4 where
  e0 : ℝ
  e1 : ℝ
  e2 : ℝ
  e3 : ℝ
  e4 : ℝ
  e5 : ℝ
  e6 : ℝ
  e7 : ℝ
  e8 : ℝ
  e9 : ℝ
  e10 : ℝ
  e11 : ℝ
  e12 : ℝ
  e13 : ℝ
  e14 : ℝ
  e15 : ℝ

/-- mat4.create(), the identity matrix. -/
def mat4Identity : Mat4 :=
  { e0 := 1, e1 := 0, e2 := 0, e3 := 0
    e4 := 0, e5 := 1, e6 := 0, e7 := 0
    e8 := 0, e9 := 0, e10 := 1, e11 := 0
    e12 := 0, e13 := 0, e14 := 0, e15 := 1 }

/-- mat4.rotate applied to the identity matrix (as the Camera code does):
normalize the axis, then build the Rodrigues rotation matrix.  The source
returns null when the axis length is below EPSILON; the exact-arithmetic
analogue of that guard is a zero axis. -/
noncomputable def mat4Rotate (rad : ℝ) (axis : Vec3) : Option Mat4 :=
  if axis.norm2 = 0 then none else
  let len := 1 / Real.sqrt axis.norm2
  let x := axis.x * len
  let y := axis.y * len
  let z := axis.z * len
  let s := Real.sin rad
  let c := Real.cos rad
  let t := 1 - c
  some
    { e0 := x * x * t + c, e1 := y * x * t + z * s, e2 := z * x * t - y * s, e3 := 0
      e4 := x * y * t - z * s, e5 := y * y * t + c, e6 := z * y * t + x * s, e7 := 0
      e8 := x * z * t + y * s, e9 := y * z * t - x * s, e10 := z * z * t + c, e11 := 0
      e12 := 0, e13 := 0, e14 := 0, e15 := 1 }

/-- vec3.transformMat4: apply m to (v, 1), with the w component defaulting
to 1 when it computes to 0 (the w || 1.0 in the source). -/
noncomputable def Vec3.transformMat4 (v : Vec3) (m : Mat4) : Vec3 :=
  let w0 := m.e3 * v.x + m.e7 * v.y + m.e11 * v.z + m.e15
  let w := if w0 = 0 then 1 else w0
  ⟨(m.e0 * v.x + m.e4 * v.y + m.e8 * v.z + m.e12) / w,
   (m.e1 * v.x + m.e5 * v.y + m.e9 * v.z + m.e13) / w,
   (m.e2 * v.x + m.e6 * v.y + m.e10 * v.z + m.e14) / w⟩

/-- mat4.lookAt: returns the identity when eye and center coincide
(the componentwise EPSILON check of the source, exact here), otherwise
builds the view matrix from z = normalize(eye - center),
x = normalize(cross(up, z)), y = normalize(cross(z, x)). -/
noncomputable def mat4LookAt (eye center up : Vec3) : Mat4 :=
  if (Vec3.sub eye center).norm2 = 0 then mat4Identity else
  let zv := (Vec3.sub eye center).normalize
  let xv := (Vec3.cross up zv).normalize
  let yv := (Vec3.cross zv xv).normalize
  { e0 := xv.x, e1 := yv.x, e2 := zv.x, e3 := 0
    e4 := xv.y, e5 := yv.y, e6 := zv.y, e7 := 0
    e8 := xv.z, e9 := yv.z, e10 := zv.z, e11 := 0
    e12 := -(Vec3.dot xv eye), e13 := -(Vec3.dot yv eye), e14 := -(Vec3.dot zv eye), e15 := 1 }

/-- Modelled from the spec: the standard look-at (gluLookAt) matrix built
from eye, center and up, used as the reference against which the
Camera view matrix is compared (claim C1). -/
noncomputable def lookAtSpec (eye center up : Vec3) : Mat4 :=
  let f := (Vec3.sub center eye).normalize
  let s := (Vec3.cross f up).normalize
  let u := Vec3.cross s f
  { e0 := s.x, e1 := u.x, e2 := -f.x, e3 := 0
    e4 := s.y, e5 := u.y, e6 := -f.y, e7 := 0
    e8 := s.z, e9 := u.z, e10 := -f.z, e11 := 0
    e12 := -(Vec3.dot s eye), e13 := -(Vec3.dot u eye), e14 := Vec3.dot f eye, e15 := 1 }

/-- The Camera of src/examples/Tree/scripts/app.js: position and the
forward/right/up frame. -/
structure Camera where
  position : Vec3
  forward : Vec3
  right : Vec3
  up : Vec3

/-- The Camera constructor (app.js lines 457-471): forward = lookAt - position,
right = cross(forward, up), up = cross(right, forward), then all three are
normalized. -/
noncomputable def Camera.create (position lookAt up : Vec3) : Camera :=
  let forward := Vec3.sub lookAt position
  let right := Vec3.cross forward up
  let up2 := Vec3.cross right forward
  { position := position
    forward := forward.normalize
    right := right.normalize
    up := up2.normalize }

/-- Camera.prototype.getViewMatrix: mat4.lookAt(out, position, position + forward, up). -/
noncomputable def Camera.getViewMatrix (cam : Camera) : Mat4 :=
  mat4LookAt cam.position (Vec3.add cam.position cam.forward) cam.up

/-- Camera.prototype.realign: right = cross(forward, up), up = cross(right, forward),
then normalize all three. -/
noncomputable def Camera.realign (cam : Camera) : Camera :=
  let right := Vec3.cross cam.forward cam.up
  let up := Vec3.cross right cam.forward
  { cam with forward := cam.forward.normalize, right := right.normalize, up := up.normalize }

/-- Camera.prototype.rotateUp: rotate forward about the world x axis by rad
(mat4.rotate leaves the identity in place when it returns null), then realign. -/
noncomputable def Camera.rotateUp (cam : Camera) (rad : ℝ) : Camera :=
  Camera.realign
    { cam with forward := cam.forward.transformMat4 ((mat4Rotate rad (Vec3.mk 1 0 0)).getD mat4Identity) }

/-- Camera.prototype.rotateRight: rotate forward about the world z axis by rad,
then realign. -/
noncomputable def Camera.rotateRight (cam : Camera) (rad : ℝ) : Camera :=
  Camera.realign
    { cam with forward := cam.forward.transformMat4 ((mat4Rotate rad (Vec3.mk 0 0 1)).getD mat4Identity) }

/-- Camera.prototype.moveForward: position = scaleAndAdd(position, forward, dist). -/
def Camera.moveForward (cam : Camera) (dist : ℝ) : Camera :=
  { cam with position := Vec3.scaleAndAdd cam.position cam.forward dist }

/-- Camera.prototype.moveRight. -/
def Camera.moveRight (cam : Camera) (dist : ℝ) : Camera :=
  { cam with position := Vec3.scaleAndAdd cam.position cam.right dist }

/-- Camera.prototype.moveUp. -/
def Camera.moveUp (cam : Camera) (dist : ℝ) : Camera :=
  { cam with position := Vec3.scaleAndAdd cam.position cam.up dist }

/-- One rotate call on the Camera: rotateUp or rotateRight with an angle. -/
inductive Rot where
  | up (rad : ℝ)
  | right (rad : ℝ)

/-- Apply one rotate call. -/
noncomputable def Camera.applyRot (cam : Camera) : Rot → Camera
  | Rot.up rad => cam.rotateUp rad
  | Rot.right rad => cam.rotateRight rad

/-- Apply a finite sequence of rotate calls, left to right. -/
noncomputable def Camera.applyRots (cam : Camera) (rs : List Rot) : Camera :=
  rs.foldl Camera.applyRot cam

/-- The rotated forward vector a rotate call would produce before realign. -/
noncomputable def Camera.rotForward (cam : Camera) : Rot → Vec3
  | Rot.up rad => cam.forward.transformMat4 ((mat4Rotate rad (Vec3.mk 1 0 0)).getD mat4Identity)
  | Rot.right rad => cam.forward.transformMat4 ((mat4Rotate rad (Vec3.mk 0 0 1)).getD mat4Identity)

/-- A rotation sequence is safe for a camera when at every step the rotated
forward vector is not parallel to the current up vector, so realign never
collapses the frame. -/
def Camera.SafeRots : Camera → List Rot → Prop
  | _, [] => True
  | cam, r :: rs =>
      Vec3.cross (cam.rotForward r) cam.up ≠ Vec3.zero ∧ Camera.SafeRots (cam.applyRot r) rs

/-- The forward/right/up triple is mutually orthogonal and each vector has
unit length. -/
def Camera.Orthonormal (cam : Camera) : Prop :=
  cam.forward.len = 1 ∧ cam.right.len = 1 ∧ cam.up.len = 1 ∧
  Vec3.dot cam.forward cam.right = 0 ∧ Vec3.dot cam.forward cam.up = 0 ∧
  Vec3.dot cam.right cam.up = 0

/-- A concrete orthonormal camera looking down the negative z axis. -/
def camC2 : Camera :=
  { position := ⟨0, 0, 0⟩, forward := ⟨0, 0, -1⟩, right := ⟨1, 0, 0⟩, up := ⟨0, 1, 0⟩ }

/-! ### The deferred (gbuffer) lighting fragment shader and the Phong
point-light attenuation of src/unnamed/part_000. -/

/-- Componentwise vector product, GLSL vec3 * vec3. -/
def Vec3.mulv (a b : Vec3) : Vec3 := ⟨a.x * b.x, a.y * b.y, a.z * b.z⟩

/-- GLSL scalar + vec3, added to every component. -/
def Vec3.addScalar (s : ℝ) (a : Vec3) : Vec3 := ⟨s + a.x, s + a.y, s + a.z⟩

/-- GLSL reflect(I, N) = I - 2 * dot(N, I) * N. -/
def Vec3.reflectV (i n : Vec3) : Vec3 := Vec3.sub i (Vec3.smul (2 * Vec3.dot n i) n)

/-- The rgb output of the gbuffer main fragment shader
(src/examples/practice/scripts/gl-scene.js lines 119-138), as a function of
the fetched light position/color, eye position, fragment position, fetched
normal and base texture color. -/
noncomputable def mainFragShade (lightPos lightColor eyePos fragPos rawNormal baseColor : Vec3) :
    Vec3 :=
  let normal := rawNormal.normalize
  let eyeDirection := (Vec3.sub eyePos fragPos).normalize
  let lightVec := Vec3.sub lightPos fragPos
  let attenuation := 1 - lightVec.len
  let lightDirection := lightVec.normalize
  let reflectionDirection := Vec3.reflectV (Vec3.smul (-1) lightDirection) normal
  let nDotL := max (Vec3.dot lightDirection normal) 0
  let diffuse := Vec3.smul nDotL lightColor
  let ambient : ℝ := 0.1
  let specular := Vec3.smul ((max (Vec3.dot reflectionDirection eyeDirection) 0) ^ (20 : ℕ)) lightColor
  Vec3.smul attenuation (Vec3.mulv (Vec3.addScalar ambient (Vec3.add diffuse specular)) baseColor)

/-- The same shading with the attenuation factor left out, used to state how
the attenuation enters the output. -/
noncomputable def mainFragShadeNoAtten (lightPos lightColor eyePos fragPos rawNormal baseColor : Vec3) :
    Vec3 :=
  let normal := rawNormal.normalize
  let eyeDirection := (Vec3.sub eyePos fragPos).normalize
  let lightVec := Vec3.sub lightPos fragPos
  let lightDirection := lightVec.normalize
  let reflectionDirection := Vec3.reflectV (Vec3.smul (-1) lightDirection) normal
  let nDotL := max (Vec3.dot lightDirection normal) 0
  let diffuse := Vec3.smul nDotL lightColor
  let ambient : ℝ := 0.1
  let specular := Vec3.smul ((max (Vec3.dot reflectionDirection eyeDirection) 0) ^ (20 : ℕ)) lightColor
  Vec3.mulv (Vec3.addScalar ambient (Vec3.add diffuse specular)) baseColor

/-- The gbuffer attenuation as a function of distance: 1.0 - length(lightVec). -/
def mainAtten (d : ℝ) : ℝ := 1 - d

/-- The inverse-square point-light attenuation of CalcPointLight
(src/unnamed/part_000 lines 127-129) as a function of distance:
1.0 / (constant + linear * d + quadratic * (d * d)). -/
noncomputable def pointAtten (c l q d : ℝ) : ℝ := 1 / (c + l * d + q * (d * d))

/-- The attenuation CalcPointLight computes from the light and fragment
positions: distance = length(light.position - fragPos). -/
noncomputable def calcPointLightAtten (c l q : ℝ) (lightPosition fragPos : Vec3) : ℝ :=
  pointAtten c l q (Vec3.len (Vec3.sub lightPosition fragPos))

/-! ### Scene rendering (src/examples/Tree/scripts/app.js, Scene/Model). -/

/-- A Model as built by the Model constructor (app.js lines 414-437): the four
buffer handles, the world-matrix token, the uploaded index list and
nPoints = indices.length. -/
structure ModelM where
  vbo : Nat
  ibo : Nat
  nbo : Nat
  tbo : Nat
  world : Nat
  indices : List Nat
  nPoints : Nat
deriving DecidableEq

/-- The Model constructor: stores the buffer handles and sets
this.nPoints = indices.length. -/
def mkModel (vbo ibo nbo tbo world : Nat) (_vertices : List Int) (indices : List Nat)
    (_normals _texCoords : List Int) : ModelM :=
  { vbo := vbo, ibo := ibo, nbo := nbo, tbo := tbo, world := world,
    indices := indices, nPoints := indices.length }

/-- The loaded Scene state used by Render and AddModel: the models and
textures maps (association lists in insertion order, as the for-in loop of
Render iterates object keys) and the per-frame matrix tokens. -/
structure Scene where
  models : List (String × ModelM)
  textures : List (String × Nat)
  viewMatrix : Nat
  projMatrix : Nat
deriving DecidableEq

/-- The WebGL calls Scene.prototype.Render issues, abstracted. -/
inductive GLCmd where
  | enableCap (cap : String)
  | frontFaceCCW
  | cullFaceBack
  | viewport
  | clearColor
  | clear
  | useProgram
  | uniformMatrix4fv (name : String) (value : Nat)
  | uniform3f (name : String)
  | bindTexture2D (tex : Option Nat)
  | activeTexture0
  | bindArrayBuffer (buf : Option Nat)
  | vertexAttribPointer (attr : String)
  | enableVertexAttribArray (attr : String)
  | bindElementArrayBuffer (buf : Option Nat)
  | drawElements (count : Nat)
deriving DecidableEq

/-- The per-frame prefix of Render (app.js lines 333-349). -/
def perFrameCmds (s : Scene) : List GLCmd :=
  [GLCmd.enableCap "DEPTH_TEST", GLCmd.enableCap "CULL_FACE", GLCmd.frontFaceCCW,
   GLCmd.cullFaceBack, GLCmd.viewport, GLCmd.clearColor, GLCmd.clear, GLCmd.useProgram,
   GLCmd.uniformMatrix4fv "mProj" s.projMatrix, GLCmd.uniformMatrix4fv "mView" s.viewMatrix,
   GLCmd.uniform3f "ambientLightIntensity", GLCmd.uniform3f "sunDirection",
   GLCmd.uniform3f "sunColor"]

/-- The per-mesh body of the Render loop (app.js lines 352-397): bind the
texture looked up under the mesh id, set the world matrix, bind the vertex
buffers and attribute pointers, bind the index buffer, draw nPoints elements. -/
def meshCmds (textures : List (String × Nat)) (id : String) (m : ModelM) : List GLCmd :=
  [GLCmd.bindTexture2D (textures.lookup id), GLCmd.activeTexture0,
   GLCmd.uniformMatrix4fv "mWorld" m.world,
   GLCmd.bindArrayBuffer (some m.vbo), GLCmd.vertexAttribPointer "vertPosition",
   GLCmd.enableVertexAttribArray "vertPosition",
   GLCmd.bindArrayBuffer (some m.tbo), GLCmd.vertexAttribPointer "vertTexCoord",
   GLCmd.enableVertexAttribArray "vertTexCoord",
   GLCmd.bindArrayBuffer (some m.nbo), GLCmd.vertexAttribPointer "vertNormal",
   GLCmd.enableVertexAttribArray "vertNormal",
   GLCmd.bindArrayBuffer none,
   GLCmd.bindElementArrayBuffer (some m.ibo),
   GLCmd.drawElements m.nPoints,
   GLCmd.bindElementArrayBuffer none]

/-- The full trace of one Render() invocation: the per-frame prefix followed
by the per-mesh blocks in insertion order of the models map. -/
def Scene.renderTrace (s : Scene) : List GLCmd :=
  perFrameCmds s ++ s.models.flatMap fun p => meshCmds s.textures p.1 p.2

/-- Extract the element count of an indexed draw call. -/
def GLCmd.drawCount : GLCmd → Option Nat
  | GLCmd.drawElements n => some n
  | _ => none

/-- The element counts of the draw calls of a trace, in order. -/
def drawCalls (cmds : List GLCmd) : List Nat := cmds.filterMap GLCmd.drawCount

/-! ### AddModel (src/examples/Tree/scripts/app.js lines 267-322). -/

/-- The parsed json payload of a model file (the fields AddModel reads). -/
structure ModelJson where
  positionArray : List Int
  indexArray : List Nat
  normalArray : List Int
  uvArray : List Int
deriving DecidableEq

/-- The observable outcome of the AddModel onload handler. -/
inductive AddOutcome where
  | registered
  | assetError
  | httpError (status : Nat)
deriving DecidableEq

/-- JavaScript object property assignment on an association list: overwrite in
place when the key exists, append otherwise. -/
def mapInsert {α : Type} : List (String × α) → String → α → List (String × α)
  | [], k, v => [(k, v)]
  | (k2, v2) :: rest, k, v =>
      if k2 = k then (k, v) :: rest else (k2, v2) :: mapInsert rest k v

/-- The request.onload handler of Scene.prototype.AddModel: on an http status
in 200..299 it parses the json (a malformed payload makes JSON.parse throw,
which the try/catch turns into a logged asset error and an early return that
leaves the scene untouched); on success it registers the new Model and
texture under the id.  fresh supplies the handles gl.create* would return. -/
def Scene.addModelOnload (s : Scene) (id : String) (status : Nat)
    (parsed : Option ModelJson) (fresh : Nat) : AddOutcome × Scene :=
  if 199 < status ∧ status < 300 then
    match parsed with
    | none => (AddOutcome.assetError, s)
    | some j =>
        let m := mkModel fresh (fresh + 1) (fresh + 2) (fresh + 3) (fresh + 4)
          j.positionArray j.indexArray j.normalArray j.uvArray
        (AddOutcome.registered,
          { s with models := mapInsert s.models id m,
                   textures := mapInsert s.textures id (fresh + 5) })
  else (AddOutcome.httpError status, s)

/-! ### Scene lifecycle: Load and Unload on the nullable fields
(src/examples/Tree/scripts/app.js lines 66-223). -/

/-- A JavaScript runtime error. -/
inductive JsErr where
  | typeError
deriving DecidableEq

/-- The nullable fields of a Scene object as Load and Unload see them:
none is null/undefined. -/
structure SceneFields where
  models : Option (List (String × Option Nat))
  textures : Option (List (String × Option Nat))
  camera : Option Unit
  program : Option Unit
  projMatrix : Option Unit
  viewMatrix : Option Unit
  nextFrameHandle : Option Nat
deriving DecidableEq

/-- Scene.prototype.Pause: cancels the pending animation frame when the handle
is truthy; it mutates no field. -/
def SceneFields.pause (s : SceneFields) : SceneFields := s

/-- Scene.prototype.Unload (app.js lines 201-223).  The first branch nulls the
model entries and the models map.  The second branch re-checks this.models --
which the first branch has just nulled -- instead of this.textures, so its
body (which would read this.textures.length, a TypeError on null) never runs
and the textures map is never cleared.  The tail sets camera, program and the
matrices to null and clears the frame handle. -/
def SceneFields.unload (s : SceneFields) : Except JsErr SceneFields := do
  let s0 := s.pause
  let s1 := if s0.models.isSome then { s0 with models := none } else s0
  let s2 ← if s1.models.isSome then
      match s1.textures with
      | none => Except.error JsErr.typeError
      | some _ => Except.ok { s1 with textures := none }
    else Except.ok s1
  Except.ok { s2 with camera := none, program := none, projMatrix := none,
                      viewMatrix := none, nextFrameHandle := none }

/-- Whether an optional resource map holds no entries (null or empty). -/
def mapCleared : Option (List (String × Option Nat)) → Bool
  | none => true
  | some l => l.isEmpty

/-- Which of the four build steps of Scene.prototype.Load succeed: vertex
compile, fragment compile, link, validate. -/
structure BuildOutcome where
  vsOk : Bool
  fsOk : Bool
  linkOk : Bool
  validateOk : Bool
deriving DecidableEq

/-- A build outcome with at least one failing step. -/
def BuildOutcome.failed (o : BuildOutcome) : Bool :=
  !o.vsOk || !o.fsOk || !o.linkOk || !o.validateOk

/-- Everything a caller of Scene.prototype.Load can observe: the scene fields
afterwards, the console log, whether the completion callback ran, whether an
exception escaped, and the value the function returned (always undefined in
the source, so never an error value). -/
structure LoadResult where
  scene : SceneFields
  logged : List String
  callbackInvoked : Bool
  thrown : Option JsErr
  returnValue : Option JsErr
deriving DecidableEq

/-- Scene.prototype.Load (app.js lines 66-195): it first resets
this.models and this.textures to empty maps, then compiles the vertex and
fragment shaders, links and validates the program; the first failing step
logs the diagnostic and returns undefined without invoking the callback.  On
success it stores the program and creates the default camera and the view and
projection matrices, then invokes the callback. -/
def SceneFields.load (s : SceneFields) (o : BuildOutcome) : LoadResult :=
  let s1 := { s with models := some [], textures := some [] }
  if o.vsOk = false then
    { scene := s1, logged := ["Error compiling vertex shader"], callbackInvoked := false,
      thrown := none, returnValue := none }
  else if o.fsOk = false then
    { scene := s1, logged := ["Error compiling fragment shader"], callbackInvoked := false,
      thrown := none, returnValue := none }
  else if o.linkOk = false then
    { scene := s1, logged := ["Error linking program"], callbackInvoked := false,
      thrown := none, returnValue := none }
  else if o.validateOk = false then
    { scene := s1, logged := ["Error validating program"], callbackInvoked := false,
      thrown := none, returnValue := none }
  else
    { scene := { s1 with program := some (), camera := some (),
                         viewMatrix := some (), projMatrix := some () },
      logged := [], callbackInvoked := true, thrown := none, returnValue := none }

/-- Whether a Load error reaches the caller programmatically: an escaping
exception or an error return value.  A console log is visible to a human, not
to the calling code. -/
def LoadResult.errorReachesCaller (r : LoadResult) : Prop :=
  r.thrown ≠ none ∨ r.returnValue ≠ none

/-- What a caller of the Material class constructor (src/unnamed/part_000
lines 279-313) observes. -/
structure MaterialResult where
  ctorReturnsInstance : Bool
  programSet : Bool
  linkedOk : Bool
  logged : List String
  thrown : Option JsErr
deriving DecidableEq

/-- The Material constructor: getShader logs and returns null on a compile
failure; when both shaders compiled, the program is created and stored on
this.program before the link status check, whose failure logs and runs
return null -- which a JavaScript constructor ignores, so the caller still
receives the instance.  No path throws. -/
def mkMaterial (vsOk fsOk linkOk : Bool) : MaterialResult :=
  let logs := (if vsOk then [] else ["Shader Error (vertex)"]) ++
              (if fsOk then [] else ["Shader Error (fragment)"])
  if vsOk && fsOk then
    if linkOk then
      { ctorReturnsInstance := true, programSet := true, linkedOk := true,
        logged := logs, thrown := none }
    else
      { ctorReturnsInstance := true, programSet := true, linkedOk := false,
        logged := logs ++ ["Cannot load shader"], thrown := none }
  else
    { ctorReturnsInstance := true, programSet := false, linkedOk := false,
      logged := logs, thrown := none }

/-- How the renderer constructor of src/unnamed/part_000 (lines 204-274)
terminates. -/
inductive RendererOutcome where
  | ctorReturned (programSet : Bool)
  | threw (e : JsErr)
deriving DecidableEq

/-- The renderer constructor: each failed build step logs and returns early,
leaving a half-built object.  When compile, link and validate all succeed it
stores the program and then executes me.uniforms.pointLights = [] -- but
me.uniforms was never assigned, so reading .pointLights on undefined throws a
TypeError before the loop over the global scene.pointLights is reached. -/
def rendererNew (o : BuildOutcome) (_scenePointLightCount : Nat) : RendererOutcome :=
  if o.vsOk = false then RendererOutcome.ctorReturned false
  else if o.fsOk = false then RendererOutcome.ctorReturned false
  else if o.linkOk = false then RendererOutcome.ctorReturned false
  else if o.validateOk = false then RendererOutcome.ctorReturned false
  else RendererOutcome.threw JsErr.typeError

/-! ### Concrete inputs used by witnesses and counterexamples. -/

/-- A concrete model with three index entries. -/
def mEx : ModelM := mkModel 1 2 3 4 5 [0, 0, 0, 1, 1, 1, 2, 2, 2] [0, 1, 2] [] []

/-- A concrete loaded scene holding one mesh and its texture. -/
def sEx : Scene :=
  { models := [("tree", mEx)], textures := [("tree", 7)], viewMatrix := 0, projMatrix := 1 }

/-- A concrete scene object before Load: every field null/undefined. -/
def sceneFresh : SceneFields :=
  { models := none, textures := none, camera := none, program := none,
    projMatrix := none, viewMatrix := none, nextFrameHandle := none }

/-- A concrete loaded scene object with one model and one texture registered. -/
def sceneC4 : SceneFields :=
  { models := some [("tree", some 3)], textures := some [("tree", some 7)],
    camera := some (), program := some (), projMatrix := some (), viewMatrix := some (),
    nextFrameHandle := some 1 }

/-- The state Unload leaves sceneC4 in: every field nulled except the textures
map, which the misguarded second branch never clears. -/
def sceneC4After : SceneFields :=
  { models := none, textures := some [("tree", some 7)], camera := none, program := none,
    projMatrix := none, viewMatrix := none, nextFrameHandle := none }

/-! ### Vector algebra lemmas. -/

theorem Vec3.norm2_zero : Vec3.zero.norm2 = 0 := by
  simp [Vec3.norm2, Vec3.zero]

theorem Vec3.norm2_nonneg (v : Vec3) : 0 ≤ v.norm2 := by
  have h1 : 0 ≤ v.x * v.x := mul_self_nonneg v.x
  have h2 : 0 ≤ v.y * v.y := mul_self_nonneg v.y
  have h3 : 0 ≤ v.z * v.z := mul_self_nonneg v.z
  unfold Vec3.norm2
  linarith

theorem Vec3.norm2_eq_zero_iff (v : Vec3) : v.norm2 = 0 ↔ v = Vec3.zero := by
  constructor
  · intro h
    unfold Vec3.norm2 at h
    have hx : v.x = 0 := by
      nlinarith [mul_self_nonneg v.x, mul_self_nonneg v.y, mul_self_nonneg v.z]
    have hy : v.y = 0 := by
      nlinarith [mul_self_nonneg v.x, mul_self_nonneg v.y, mul_self_nonneg v.z]
    have hz : v.z = 0 := by
      nlinarith [mul_self_nonneg v.x, mul_self_nonneg v.y, mul_self_nonneg v.z]
    cases v
    simp_all [Vec3.zero]
  · intro h
    rw [h]
    exact Vec3.norm2_zero

theorem Vec3.norm2_pos_of_ne (v : Vec3) (h : v ≠ Vec3.zero) : 0 < v.norm2 :=
  lt_of_le_of_ne (Vec3.norm2_nonneg v)
    (fun h0 => h ((Vec3.norm2_eq_zero_iff v).mp h0.symm))

theorem Vec3.ne_zero_of_norm2_one (v : Vec3) (h : v.norm2 = 1) : v ≠ Vec3.zero := by
  intro h0
  rw [h0, Vec3.norm2_zero] at h
  norm_num at h

theorem Vec3.norm2_smul (c : ℝ) (v : Vec3) : (Vec3.smul c v).norm2 = c ^ 2 * v.norm2 := by
  simp only [Vec3.smul, Vec3.norm2]
  ring

theorem Vec3.smul_one_vec (v : Vec3) : Vec3.smul 1 v = v := by
  cases v
  simp [Vec3.smul]

theorem Vec3.smul_zero_vec (c : ℝ) : Vec3.smul c Vec3.zero = Vec3.zero := by
  simp [Vec3.smul, Vec3.zero]

theorem Vec3.smul_smul_vec (c d : ℝ) (v : Vec3) :
    Vec3.smul c (Vec3.smul d v) = Vec3.smul (c * d) v := by
  simp only [Vec3.smul]
  ext <;> dsimp <;> ring

theorem Vec3.normalize_eq_smul (v : Vec3) : ∃ c : ℝ, v.normalize = Vec3.smul c v := by
  unfold Vec3.normalize
  by_cases h : 0 < v.norm2
  · exact ⟨1 / Real.sqrt v.norm2, if_pos h⟩
  · exact ⟨v.norm2, if_neg h⟩

theorem Vec3.normalize_zero : Vec3.zero.normalize = Vec3.zero := by
  unfold Vec3.normalize
  rw [if_neg (by rw [Vec3.norm2_zero]; norm_num)]
  exact Vec3.smul_zero_vec _

theorem Vec3.norm2_normalize (v : Vec3) (h : v ≠ Vec3.zero) : v.normalize.norm2 = 1 := by
  have hp := Vec3.norm2_pos_of_ne v h
  unfold Vec3.normalize
  rw [if_pos hp, Vec3.norm2_smul, div_pow, one_pow, Real.sq_sqrt hp.le]
  field_simp

theorem Vec3.len_normalize (v : Vec3) (h : v ≠ Vec3.zero) : v.normalize.len = 1 := by
  rw [Vec3.len, Vec3.norm2_normalize v h, Real.sqrt_one]

theorem Vec3.normalize_of_norm2_one (v : Vec3) (h : v.norm2 = 1) : v.normalize = v := by
  unfold Vec3.normalize
  rw [if_pos (by rw [h]; norm_num), h, Real.sqrt_one]
  rw [one_div_one, Vec3.smul_one_vec]

theorem Vec3.normalize_ne_zero (v : Vec3) (h : v ≠ Vec3.zero) : v.normalize ≠ Vec3.zero :=
  Vec3.ne_zero_of_norm2_one _ (Vec3.norm2_normalize v h)

theorem Vec3.dot_comm (a b : Vec3) : Vec3.dot a b = Vec3.dot b a := by
  simp only [Vec3.dot]
  ring

theorem Vec3.dot_smul_left (c : ℝ) (a b : Vec3) :
    Vec3.dot (Vec3.smul c a) b = c * Vec3.dot a b := by
  simp only [Vec3.dot, Vec3.smul]
  ring

theorem Vec3.dot_smul_right (c : ℝ) (a b : Vec3) :
    Vec3.dot a (Vec3.smul c b) = c * Vec3.dot a b := by
  simp only [Vec3.dot, Vec3.smul]
  ring

theorem Vec3.dot_cross_left (a b : Vec3) : Vec3.dot (Vec3.cross a b) a = 0 := by
  simp only [Vec3.dot, Vec3.cross]
  ring

theorem Vec3.dot_cross_right (a b : Vec3) : Vec3.dot (Vec3.cross a b) b = 0 := by
  simp only [Vec3.dot, Vec3.cross]
  ring

theorem Vec3.norm2_cross (a b : Vec3) :
    (Vec3.cross a b).norm2 = a.norm2 * b.norm2 - (Vec3.dot a b) ^ 2 := by
  simp only [Vec3.norm2, Vec3.cross, Vec3.dot]
  ring

theorem Vec3.cross_smul_left (c : ℝ) (a b : Vec3) :
    Vec3.cross (Vec3.smul c a) b = Vec3.smul c (Vec3.cross a b) := by
  simp only [Vec3.cross, Vec3.smul]
  ext <;> dsimp <;> ring

theorem Vec3.cross_smul_right (c : ℝ) (a b : Vec3) :
    Vec3.cross a (Vec3.smul c b) = Vec3.smul c (Vec3.cross a b) := by
  simp only [Vec3.cross, Vec3.smul]
  ext <;> dsimp <;> ring

theorem Vec3.neg_cross (a b : Vec3) :
    Vec3.smul (-1) (Vec3.cross a b) = Vec3.cross b a := by
  simp only [Vec3.cross, Vec3.smul]
  ext <;> dsimp <;> ring

theorem Vec3.cross_zero_left (b : Vec3) : Vec3.cross Vec3.zero b = Vec3.zero := by
  simp [Vec3.cross, Vec3.zero]

theorem Vec3.normalize_smul_of_pos (c : ℝ) (v : Vec3) (hc : 0 < c) :
    (Vec3.smul c v).normalize = v.normalize := by
  by_cases h : v = Vec3.zero
  · rw [h, Vec3.smul_zero_vec]
  · have hv := Vec3.norm2_pos_of_ne v h
    have h2 : (Vec3.smul c v).norm2 = c ^ 2 * v.norm2 := Vec3.norm2_smul c v
    have hp : 0 < (Vec3.smul c v).norm2 := by rw [h2]; positivity
    unfold Vec3.normalize
    rw [if_pos hp, if_pos hv, h2]
    have hsq : Real.sqrt (c ^ 2 * v.norm2) = c * Real.sqrt v.norm2 := by
      rw [Real.sqrt_mul (sq_nonneg c), Real.sqrt_sq hc.le]
    rw [hsq]
    have hc0 : c ≠ 0 := hc.ne'
    have hs0 : Real.sqrt v.norm2 ≠ 0 := (Real.sqrt_pos.mpr hv).ne'
    ext <;> simp only [Vec3.smul] <;> field_simp <;> ring

theorem Vec3.smul_ne_zero_vec (c : ℝ) (v : Vec3) (hc : c ≠ 0) (hv : v ≠ Vec3.zero) :
    Vec3.smul c v ≠ Vec3.zero := by
  intro h0
  have h2 := congrArg Vec3.norm2 h0
  rw [Vec3.norm2_smul, Vec3.norm2_zero] at h2
  have hvp := Vec3.norm2_pos_of_ne v hv
  have : c ^ 2 > 0 := by positivity
  nlinarith

theorem Vec3.dot_normalize_zero (a b : Vec3) (h : Vec3.dot a b = 0) :
    Vec3.dot a.normalize b.normalize = 0 := by
  obtain ⟨c, hc⟩ := Vec3.normalize_eq_smul a
  obtain ⟨d, hd⟩ := Vec3.normalize_eq_smul b
  rw [hc, hd, Vec3.dot_smul_left, Vec3.dot_smul_right, h]
  ring

theorem Vec3.normalize_cross_normalize_left (a b : Vec3) (ha : a ≠ Vec3.zero) :
    (Vec3.cross a.normalize b).normalize = (Vec3.cross a b).normalize := by
  have hp := Vec3.norm2_pos_of_ne a ha
  have hdef : a.normalize = Vec3.smul (1 / Real.sqrt a.norm2) a := by
    unfold Vec3.normalize; rw [if_pos hp]
  rw [hdef, Vec3.cross_smul_left]
  exact Vec3.normalize_smul_of_pos _ _ (by positivity)

theorem Vec3.normalize_cross_normalize (a b : Vec3) (ha : a ≠ Vec3.zero) (hb : b ≠ Vec3.zero) :
    (Vec3.cross a.normalize b.normalize).normalize = (Vec3.cross a b).normalize := by
  have hpa := Vec3.norm2_pos_of_ne a ha
  have hpb := Vec3.norm2_pos_of_ne b hb
  have hda : a.normalize = Vec3.smul (1 / Real.sqrt a.norm2) a := by
    unfold Vec3.normalize; rw [if_pos hpa]
  have hdb : b.normalize = Vec3.smul (1 / Real.sqrt b.norm2) b := by
    unfold Vec3.normalize; rw [if_pos hpb]
  rw [hda, hdb, Vec3.cross_smul_left, Vec3.cross_smul_right, Vec3.smul_smul_vec]
  exact Vec3.normalize_smul_of_pos _ _ (by positivity)

theorem Vec3.sub_eq_zero_iff (a b : Vec3) : Vec3.sub a b = Vec3.zero ↔ a = b := by
  cases a
  cases b
  simp only [Vec3.sub, Vec3.zero, Vec3.mk.injEq]
  constructor
  · rintro ⟨h1, h2, h3⟩
    exact ⟨by linarith, by linarith, by linarith⟩
  · rintro ⟨h1, h2, h3⟩
    exact ⟨by linarith, by linarith, by linarith⟩

theorem Vec3.sub_of_add (a b : Vec3) :
    Vec3.sub a (Vec3.add a b) = Vec3.smul (-1) b := by
  simp only [Vec3.sub, Vec3.add, Vec3.smul]
  ext <;> dsimp <;> ring

theorem Vec3.sub_add_cancel_vec (a b : Vec3) : Vec3.sub (Vec3.add a b) a = b := by
  cases a
  cases b
  simp only [Vec3.sub, Vec3.add]
  ext <;> dsimp <;> ring

/-! ### Rotation matrix evaluation and realign lemmas. -/

theorem mat4Rotate_x (rad : ℝ) :
    mat4Rotate rad (Vec3.mk 1 0 0) = some
      { e0 := 1, e1 := 0, e2 := 0, e3 := 0
        e4 := 0, e5 := Real.cos rad, e6 := Real.sin rad, e7 := 0
        e8 := 0, e9 := -Real.sin rad, e10 := Real.cos rad, e11 := 0
        e12 := 0, e13 := 0, e14 := 0, e15 := 1 } := by
  have hn : (Vec3.mk 1 0 0).norm2 = 1 := by norm_num [Vec3.norm2]
  rw [mat4Rotate, hn, if_neg one_ne_zero]
  simp only [Real.sqrt_one, Option.some.injEq]
  ext <;> dsimp <;> ring

theorem mat4Rotate_z (rad : ℝ) :
    mat4Rotate rad (Vec3.mk 0 0 1) = some
      { e0 := Real.cos rad, e1 := Real.sin rad, e2 := 0, e3 := 0
        e4 := -Real.sin rad, e5 := Real.cos rad, e6 := 0, e7 := 0
        e8 := 0, e9 := 0, e10 := 1, e11 := 0
        e12 := 0, e13 := 0, e14 := 0, e15 := 1 } := by
  have hn : (Vec3.mk 0 0 1).norm2 = 1 := by norm_num [Vec3.norm2]
  rw [mat4Rotate, hn, if_neg one_ne_zero]
  simp only [Real.sqrt_one, Option.some.injEq]
  ext <;> dsimp <;> ring

theorem rotX_apply (rad : ℝ) (v : Vec3) :
    Vec3.transformMat4 v ((mat4Rotate rad (Vec3.mk 1 0 0)).getD mat4Identity) =
      Vec3.mk v.x (Real.cos rad * v.y - Real.sin rad * v.z)
        (Real.sin rad * v.y + Real.cos rad * v.z) := by
  rw [mat4Rotate_x, Option.getD_some, Vec3.transformMat4]
  norm_num
  all_goals ring

theorem rotZ_apply (rad : ℝ) (v : Vec3) :
    Vec3.transformMat4 v ((mat4Rotate rad (Vec3.mk 0 0 1)).getD mat4Identity) =
      Vec3.mk (Real.cos rad * v.x - Real.sin rad * v.y)
        (Real.sin rad * v.x + Real.cos rad * v.y) v.z := by
  rw [mat4Rotate_z, Option.getD_some, Vec3.transformMat4]
  norm_num
  all_goals ring

theorem Camera.realign_forward (cam : Camera) :
    (cam.realign).forward = cam.forward.normalize := rfl

theorem Camera.realign_right (cam : Camera) :
    (cam.realign).right = (Vec3.cross cam.forward cam.up).normalize := rfl

theorem Camera.realign_up (cam : Camera) :
    (cam.realign).up = (Vec3.cross (Vec3.cross cam.forward cam.up) cam.forward).normalize := rfl

theorem Camera.realign_orthonormal (cam : Camera)
    (h : Vec3.cross cam.forward cam.up ≠ Vec3.zero) : cam.realign.Orthonormal := by
  have hf : cam.forward ≠ Vec3.zero := by
    intro h0
    exact h (by rw [h0, Vec3.cross_zero_left])
  have hrf : Vec3.dot (Vec3.cross cam.forward cam.up) cam.forward = 0 :=
    Vec3.dot_cross_left _ _
  have hu2 : (Vec3.cross (Vec3.cross cam.forward cam.up) cam.forward).norm2 =
      (Vec3.cross cam.forward cam.up).norm2 * cam.forward.norm2 := by
    rw [Vec3.norm2_cross, hrf]
    ring
  have hfp := Vec3.norm2_pos_of_ne _ hf
  have hrp := Vec3.norm2_pos_of_ne _ h
  have hu : Vec3.cross (Vec3.cross cam.forward cam.up) cam.forward ≠ Vec3.zero := by
    intro h0
    have h2 := congrArg Vec3.norm2 h0
    rw [hu2, Vec3.norm2_zero] at h2
    nlinarith
  refine ⟨?_, ?_, ?_, ?_, ?_, ?_⟩
  · rw [Camera.realign_forward]
    exact Vec3.len_normalize _ hf
  · rw [Camera.realign_right]
    exact Vec3.len_normalize _ h
  · rw [Camera.realign_up]
    exact Vec3.len_normalize _ hu
  · rw [Camera.realign_forward, Camera.realign_right]
    exact Vec3.dot_normalize_zero _ _ (by rw [Vec3.dot_comm]; exact Vec3.dot_cross_left _ _)
  · rw [Camera.realign_forward, Camera.realign_up]
    exact Vec3.dot_normalize_zero _ _ (by rw [Vec3.dot_comm]; exact Vec3.dot_cross_right _ _)
  · rw [Camera.realign_right, Camera.realign_up]
    exact Vec3.dot_normalize_zero _ _ (by rw [Vec3.dot_comm]; exact Vec3.dot_cross_left _ _)

theorem Camera.applyRot_eq (cam : Camera) (r : Rot) :
    cam.applyRot r = Camera.realign { cam with forward := cam.rotForward r } := by
  cases r <;> rfl

theorem Camera.applyRot_orthonormal (cam : Camera) (r : Rot)
    (h : Vec3.cross (cam.rotForward r) cam.up ≠ Vec3.zero) : (cam.applyRot r).Orthonormal := by
  rw [Camera.applyRot_eq]
  exact Camera.realign_orthonormal _ h

/-- Helper for C1: for a camera whose forward vector has unit length and is
not parallel to its up vector, getViewMatrix agrees with the spec look-at
matrix at eye = position, center = position + forward. -/
theorem camera_view_eq_spec (cam : Camera) (hf : cam.forward.norm2 = 1)
    (hu : Vec3.cross cam.forward cam.up ≠ Vec3.zero) :
    cam.getViewMatrix = lookAtSpec cam.position (Vec3.add cam.position cam.forward) cam.up := by
  have hsub1 : Vec3.sub cam.position (Vec3.add cam.position cam.forward) =
      Vec3.smul (-1) cam.forward := Vec3.sub_of_add _ _
  have hsub2 : Vec3.sub (Vec3.add cam.position cam.forward) cam.position = cam.forward :=
    Vec3.sub_add_cancel_vec _ _
  have hz2 : (Vec3.smul (-1) cam.forward).norm2 = 1 := by
    rw [Vec3.norm2_smul, hf]
    norm_num
  have hnormf : cam.forward.normalize = cam.forward := Vec3.normalize_of_norm2_one _ hf
  have hznorm : (Vec3.smul (-1) cam.forward).normalize = Vec3.smul (-1) cam.forward :=
    Vec3.normalize_of_norm2_one _ hz2
  have hs2 : ((Vec3.cross cam.forward cam.up).normalize).norm2 = 1 :=
    Vec3.norm2_normalize _ hu
  have hsf : Vec3.dot ((Vec3.cross cam.forward cam.up).normalize) cam.forward = 0 := by
    obtain ⟨c, hc⟩ := Vec3.normalize_eq_smul (Vec3.cross cam.forward cam.up)
    rw [hc, Vec3.dot_smul_left, Vec3.dot_cross_left, mul_zero]
  have hu2 : (Vec3.cross ((Vec3.cross cam.forward cam.up).normalize) cam.forward).norm2 = 1 := by
    rw [Vec3.norm2_cross, hs2, hf, hsf]
    ring
  have hunorm : (Vec3.cross ((Vec3.cross cam.forward cam.up).normalize) cam.forward).normalize =
      Vec3.cross ((Vec3.cross cam.forward cam.up).normalize) cam.forward :=
    Vec3.normalize_of_norm2_one _ hu2
  rw [Camera.getViewMatrix, mat4LookAt, lookAtSpec, hsub1, hsub2, hz2,
    if_neg (one_ne_zero : (1 : ℝ) ≠ 0)]
  rw [hznorm, hnormf]
  dsimp only
  rw [Vec3.cross_smul_right, Vec3.neg_cross, Vec3.cross_smul_left,
    Vec3.neg_cross, hunorm]
  ext <;> simp only [Vec3.smul, Vec3.dot] <;> ring

/-- C2 (amended): starting from an orthonormal frame, any finite sequence of
rotateUp/rotateRight calls in which the rotated forward vector never becomes
parallel to the current up vector leaves the forward/right/up triple
mutually orthogonal and unit length. -/
theorem c2_rotations_keep_orthonormal (cam : Camera) (rs : List Rot)
    (h1 : cam.Orthonormal) (h2 : Camera.SafeRots cam rs) :
    (cam.applyRots rs).Orthonormal := by
  induction rs generalizing cam with
  | nil => exact h1
  | cons r rest ih =>
      rw [Camera.SafeRots] at h2
      obtain ⟨hsafe, hrest⟩ := h2
      have hstep := Camera.applyRot_orthonormal cam r hsafe
      exact ih (cam.applyRot r) hstep hrest

/-- Helper for C1: the concretely oriented camera has forward = [-1, 0, 0]. -/
theorem camera_create_fixed_forward :
    (Camera.create (Vec3.mk 10 0 0) (Vec3.mk 0 0 0) (Vec3.mk 0 1 0)).forward =
      Vec3.mk (-1) 0 0 := by
  show (Vec3.sub (Vec3.mk 0 0 0) (Vec3.mk 10 0 0)).normalize = Vec3.mk (-1) 0 0
  have hsub : Vec3.sub (Vec3.mk 0 0 0) (Vec3.mk 10 0 0) = Vec3.mk (-10) 0 0 := by
    ext <;> norm_num [Vec3.sub]
  rw [hsub]
  have hn : (Vec3.mk (-10) 0 0).norm2 = 100 := by norm_num [Vec3.norm2]
  unfold Vec3.normalize
  rw [if_pos (by rw [hn]; norm_num), hn]
  have hsq : Real.sqrt 100 = 10 := by
    rw [show (100 : ℝ) = 10 ^ 2 by norm_num, Real.sqrt_sq (by norm_num : (0 : ℝ) ≤ 10)]
  rw [hsq]
  ext <;> norm_num [Vec3.smul]

/-- C1: constructing/orienting a Camera from position, lookAt, up (position
distinct from lookAt, up not parallel to forward) sets
forward = normalize(lookAt - position), right = normalize(cross(forward, up)),
up = normalize(cross(right, forward)); orienting from [10,0,0] to the origin
with up [0,1,0] yields forward = [-1,0,0]; and getViewMatrix equals the
standard look-at matrix built from eye = position, center = position + forward
and the camera up vector. -/
theorem c1_camera_orient_and_view (position lookAt up : Vec3)
    (h1 : position ≠ lookAt)
    (h2 : Vec3.cross (Vec3.sub lookAt position) up ≠ Vec3.zero) :
    (Camera.create position lookAt up).forward = (Vec3.sub lookAt position).normalize ∧
    (Camera.create position lookAt up).right =
      (Vec3.cross (Camera.create position lookAt up).forward up).normalize ∧
    (Camera.create position lookAt up).up =
      (Vec3.cross (Camera.create position lookAt up).right
        (Camera.create position lookAt up).forward).normalize ∧
    (Camera.create (Vec3.mk 10 0 0) (Vec3.mk 0 0 0) (Vec3.mk 0 1 0)).forward =
      Vec3.mk (-1) 0 0 ∧
    (Camera.create position lookAt up).getViewMatrix =
      lookAtSpec (Camera.create position lookAt up).position
        (Vec3.add (Camera.create position lookAt up).position
          (Camera.create position lookAt up).forward)
        (Camera.create position lookAt up).up := by
  have hf0 : Vec3.sub lookAt position ≠ Vec3.zero := by
    intro h0
    exact h1 ((Vec3.sub_eq_zero_iff _ _).mp h0).symm
  have hA : (Camera.create position lookAt up).forward =
      (Vec3.sub lookAt position).normalize := rfl
  have hRight : (Camera.create position lookAt up).right =
      (Vec3.cross (Vec3.sub lookAt position) up).normalize := rfl
  have hUp : (Camera.create position lookAt up).up =
      (Vec3.cross (Vec3.cross (Vec3.sub lookAt position) up)
        (Vec3.sub lookAt position)).normalize := rfl
  have hdru : Vec3.dot (Vec3.cross (Vec3.cross (Vec3.sub lookAt position) up)
      (Vec3.sub lookAt position)) (Vec3.sub lookAt position) = 0 :=
    Vec3.dot_cross_right _ _
  have hu0 : Vec3.cross (Vec3.cross (Vec3.sub lookAt position) up)
      (Vec3.sub lookAt position) ≠ Vec3.zero := by
    intro h0
    have h3 := congrArg Vec3.norm2 h0
    rw [Vec3.norm2_cross, Vec3.norm2_zero,
      Vec3.dot_cross_left (Vec3.sub lookAt position) up] at h3
    have hp1 := Vec3.norm2_pos_of_ne _ h2
    have hp2 := Vec3.norm2_pos_of_ne _ hf0
    nlinarith
  refine ⟨hA, ?_, ?_, camera_create_fixed_forward, ?_⟩
  · rw [hRight]
    conv_rhs => rw [hA]
    rw [Vec3.normalize_cross_normalize_left _ _ hf0]
  · rw [hUp]
    conv_rhs => rw [hRight, hA]
    rw [Vec3.normalize_cross_normalize _ _ h2 hf0]
  · apply camera_view_eq_spec
    · rw [hA]
      exact Vec3.norm2_normalize _ hf0
    · rw [hA, hUp]
      apply Vec3.ne_zero_of_norm2_one
      rw [Vec3.norm2_cross, Vec3.norm2_normalize _ hf0, Vec3.norm2_normalize _ hu0]
      have hd : Vec3.dot ((Vec3.sub lookAt position).normalize)
          ((Vec3.cross (Vec3.cross (Vec3.sub lookAt position) up)
            (Vec3.sub lookAt position)).normalize) = 0 := by
        apply Vec3.dot_normalize_zero
        rw [Vec3.dot_comm]
        exact hdru
      rw [hd]
      ring

/-- Witness for C1 at position [10,0,0], lookAt [0,0,0], up [0,1,0]. -/
theorem c1_witness :
    (Camera.create (Vec3.mk 10 0 0) (Vec3.mk 0 0 0) (Vec3.mk 0 1 0)).forward =
      (Vec3.sub (Vec3.mk 0 0 0) (Vec3.mk 10 0 0)).normalize ∧
    (Camera.create (Vec3.mk 10 0 0) (Vec3.mk 0 0 0) (Vec3.mk 0 1 0)).right =
      (Vec3.cross (Camera.create (Vec3.mk 10 0 0) (Vec3.mk 0 0 0) (Vec3.mk 0 1 0)).forward
        (Vec3.mk 0 1 0)).normalize ∧
    (Camera.create (Vec3.mk 10 0 0) (Vec3.mk 0 0 0) (Vec3.mk 0 1 0)).up =
      (Vec3.cross (Camera.create (Vec3.mk 10 0 0) (Vec3.mk 0 0 0) (Vec3.mk 0 1 0)).right
        (Camera.create (Vec3.mk 10 0 0) (Vec3.mk 0 0 0) (Vec3.mk 0 1 0)).forward).normalize ∧
    (Camera.create (Vec3.mk 10 0 0) (Vec3.mk 0 0 0) (Vec3.mk 0 1 0)).forward =
      Vec3.mk (-1) 0 0 ∧
    (Camera.create (Vec3.mk 10 0 0) (Vec3.mk 0 0 0) (Vec3.mk 0 1 0)).getViewMatrix =
      lookAtSpec (Camera.create (Vec3.mk 10 0 0) (Vec3.mk 0 0 0) (Vec3.mk 0 1 0)).position
        (Vec3.add (Camera.create (Vec3.mk 10 0 0) (Vec3.mk 0 0 0) (Vec3.mk 0 1 0)).position
          (Camera.create (Vec3.mk 10 0 0) (Vec3.mk 0 0 0) (Vec3.mk 0 1 0)).forward)
        (Camera.create (Vec3.mk 10 0 0) (Vec3.mk 0 0 0) (Vec3.mk 0 1 0)).up :=
  c1_camera_orient_and_view (Vec3.mk 10 0 0) (Vec3.mk 0 0 0) (Vec3.mk 0 1 0)
    (by norm_num [Vec3.mk.injEq])
    (by norm_num [Vec3.cross, Vec3.sub, Vec3.zero, Vec3.mk.injEq])

/-- C2 counterexample: the concrete orthonormal camera looking along -z is
orthonormal, yet after the single call rotateUp(pi/2) -- which makes forward
parallel to up before realign -- the right vector collapses to zero, so the
triple is no longer orthonormal. -/
theorem c2_counterexample :
    camC2.Orthonormal ∧ ¬ (camC2.applyRots [Rot.up (Real.pi / 2)]).Orthonormal := by
  have hfwd : Vec3.transformMat4 camC2.forward
      ((mat4Rotate (Real.pi / 2) (Vec3.mk 1 0 0)).getD mat4Identity) = Vec3.mk 0 1 0 := by
    rw [rotX_apply]
    ext <;> norm_num [camC2, Real.cos_pi_div_two, Real.sin_pi_div_two]
  constructor
  · refine ⟨?_, ?_, ?_, ?_, ?_, ?_⟩ <;>
      norm_num [camC2, Vec3.len, Vec3.norm2, Vec3.dot, Real.sqrt_one]
  · intro h
    obtain ⟨-, h2, -, -, -, -⟩ := h
    have h0 : camC2.applyRots [Rot.up (Real.pi / 2)] =
        Camera.realign { camC2 with forward := Vec3.mk 0 1 0 } := by
      show camC2.rotateUp (Real.pi / 2) = _
      rw [Camera.rotateUp, hfwd]
    rw [h0, Camera.realign_right] at h2
    have hcr : Vec3.cross (Vec3.mk 0 1 0) camC2.up = Vec3.zero := by
      ext <;> norm_num [Vec3.cross, camC2, Vec3.zero]
    rw [show ({ camC2 with forward := Vec3.mk 0 1 0 } : Camera).forward = Vec3.mk 0 1 0 from rfl,
      show ({ camC2 with forward := Vec3.mk 0 1 0 } : Camera).up = camC2.up from rfl,
      hcr, Vec3.normalize_zero, Vec3.len, Vec3.norm2_zero, Real.sqrt_zero] at h2
    norm_num at h2

/-- Witness for C2 at the concrete camera and the safe sequence [rotateUp 0]. -/
theorem c2_witness :
    camC2.Orthonormal ∧ Camera.SafeRots camC2 [Rot.up 0] ∧
    (camC2.applyRots [Rot.up 0]).Orthonormal := by
  have h1 : camC2.Orthonormal := by
    refine ⟨?_, ?_, ?_, ?_, ?_, ?_⟩ <;>
      norm_num [camC2, Vec3.len, Vec3.norm2, Vec3.dot, Real.sqrt_one]
  have h2 : Camera.SafeRots camC2 [Rot.up 0] := by
    rw [Camera.SafeRots]
    refine ⟨?_, trivial⟩
    show Vec3.cross (Vec3.transformMat4 camC2.forward
      ((mat4Rotate 0 (Vec3.mk 1 0 0)).getD mat4Identity)) camC2.up ≠ Vec3.zero
    rw [rotX_apply]
    norm_num [camC2, Vec3.cross, Vec3.zero, Vec3.mk.injEq, Real.cos_zero, Real.sin_zero]
  exact ⟨h1, h2, c2_rotations_keep_orthonormal camC2 [Rot.up 0] h1 h2⟩

/-- C8: moveForward(d) followed by moveForward(-d) restores the position
exactly, and both moves leave the forward/right/up basis unchanged. -/
theorem c8_moveForward_roundtrip (cam : Camera) (d : ℝ) :
    ((cam.moveForward d).moveForward (-d)).position = cam.position ∧
    ((cam.moveForward d).moveForward (-d)).forward = cam.forward ∧
    ((cam.moveForward d).moveForward (-d)).right = cam.right ∧
    ((cam.moveForward d).moveForward (-d)).up = cam.up := by
  refine ⟨?_, rfl, rfl, rfl⟩
  simp only [Camera.moveForward, Vec3.scaleAndAdd]
  ext <;> dsimp <;> ring

/-- C9: the gbuffer main fragment shader scales the shaded color by the factor
1 - length(lightPos - fragPos); the CalcPointLight attenuation is
1 / (constant + linear * d + quadratic * d * d) at d = the light distance; and
for every choice of the three coefficients these two attenuation functions of
distance are different. -/
theorem c9_attenuation_divergence :
    (∀ lightPos lightColor eyePos fragPos rawNormal baseColor : Vec3,
      mainFragShade lightPos lightColor eyePos fragPos rawNormal baseColor =
        Vec3.smul (mainAtten (Vec3.len (Vec3.sub lightPos fragPos)))
          (mainFragShadeNoAtten lightPos lightColor eyePos fragPos rawNormal baseColor)) ∧
    (∀ c l q : ℝ, ∀ lp fp : Vec3,
      calcPointLightAtten c l q lp fp = pointAtten c l q (Vec3.len (Vec3.sub lp fp))) ∧
    (∀ c l q : ℝ, mainAtten ≠ pointAtten c l q) := by
  refine ⟨fun lightPos lightColor eyePos fragPos rawNormal baseColor => rfl,
    fun c l q lp fp => rfl, ?_⟩
  intro c l q h
  have h0 := congrFun h 0
  have h1 := congrFun h 1
  have h2 := congrFun h 2
  have h3 := congrFun h 3
  simp only [mainAtten, pointAtten] at h0 h1 h2 h3
  norm_num at h0 h1 h2 h3
  have hd2 : c + l * 2 + q * 4 ≠ 0 := by
    intro hz
    rw [hz] at h2
    norm_num at h2
  have hd3 : c + l * 3 + q * 9 ≠ 0 := by
    intro hz
    rw [hz] at h3
    norm_num at h3
  have h2b : (c + l * 2 + q * 4) * (-1) = 1 := by
    rw [h2]
    field_simp
  have h3b : (c + l * 3 + q * 9) * (-2) = 1 := by
    rw [h3]
    field_simp
  linarith

/-! ### Render trace lemmas. -/

theorem drawCalls_perFrame (s : Scene) : drawCalls (perFrameCmds s) = [] := rfl

theorem drawCalls_meshCmds (ts : List (String × Nat)) (id : String) (m : ModelM) :
    drawCalls (meshCmds ts id m) = [m.nPoints] := rfl

theorem drawCalls_append (a b : List GLCmd) :
    drawCalls (a ++ b) = drawCalls a ++ drawCalls b :=
  List.filterMap_append a b _

theorem drawCalls_flatMap (ts : List (String × Nat)) (l : List (String × ModelM)) :
    drawCalls (l.flatMap fun p => meshCmds ts p.1 p.2) = l.map fun p => p.2.nPoints := by
  induction l with
  | nil => rfl
  | cons p rest ih =>
      rw [List.flatMap_cons, drawCalls_append, drawCalls_meshCmds, ih]
      rfl

/-- C3: one Render() invocation issues exactly one indexed draw call per
registered mesh, with element count equal to the index count of the mesh,
iterating meshes in insertion order; within each mesh block the texture bind,
the world-matrix uniform and the vertex/index buffer binds all precede the
draw call. -/
theorem c3_render_one_draw_per_mesh (s : Scene)
    (hwf : ∀ p ∈ s.models, p.2.nPoints = p.2.indices.length) :
    drawCalls s.renderTrace = s.models.map (fun p => p.2.indices.length) ∧
    ∀ p ∈ s.models, ∃ pre : List GLCmd,
      meshCmds s.textures p.1 p.2 =
        pre ++ [GLCmd.drawElements p.2.indices.length, GLCmd.bindElementArrayBuffer none] ∧
      GLCmd.bindTexture2D (s.textures.lookup p.1) ∈ pre ∧
      GLCmd.uniformMatrix4fv "mWorld" p.2.world ∈ pre ∧
      GLCmd.bindArrayBuffer (some p.2.vbo) ∈ pre ∧
      GLCmd.bindElementArrayBuffer (some p.2.ibo) ∈ pre ∧
      ∀ c ∈ pre, GLCmd.drawCount c = none := by
  constructor
  · rw [Scene.renderTrace, drawCalls_append, drawCalls_perFrame, drawCalls_flatMap,
      List.nil_append]
    exact List.map_congr_left hwf
  · intro p hp
    refine ⟨[GLCmd.bindTexture2D (s.textures.lookup p.1), GLCmd.activeTexture0,
      GLCmd.uniformMatrix4fv "mWorld" p.2.world,
      GLCmd.bindArrayBuffer (some p.2.vbo), GLCmd.vertexAttribPointer "vertPosition",
      GLCmd.enableVertexAttribArray "vertPosition",
      GLCmd.bindArrayBuffer (some p.2.tbo), GLCmd.vertexAttribPointer "vertTexCoord",
      GLCmd.enableVertexAttribArray "vertTexCoord",
      GLCmd.bindArrayBuffer (some p.2.nbo), GLCmd.vertexAttribPointer "vertNormal",
      GLCmd.enableVertexAttribArray "vertNormal",
      GLCmd.bindArrayBuffer none, GLCmd.bindElementArrayBuffer (some p.2.ibo)],
      ?_, ?_, ?_, ?_, ?_, ?_⟩
    · rw [meshCmds, hwf p hp]
      rfl
    · simp
    · simp
    · simp
    · simp
    · intro c hc
      simp only [List.mem_cons, List.not_mem_nil, or_false] at hc
      rcases hc with rfl | rfl | rfl | rfl | rfl | rfl | rfl | rfl | rfl | rfl | rfl | rfl |
        rfl | rfl <;> rfl

/-- Witness for C3 at the concrete one-mesh scene. -/
theorem c3_witness :
    drawCalls sEx.renderTrace = sEx.models.map (fun p => p.2.indices.length) ∧
    ∀ p ∈ sEx.models, ∃ pre : List GLCmd,
      meshCmds sEx.textures p.1 p.2 =
        pre ++ [GLCmd.drawElements p.2.indices.length, GLCmd.bindElementArrayBuffer none] ∧
      GLCmd.bindTexture2D (sEx.textures.lookup p.1) ∈ pre ∧
      GLCmd.uniformMatrix4fv "mWorld" p.2.world ∈ pre ∧
      GLCmd.bindArrayBuffer (some p.2.vbo) ∈ pre ∧
      GLCmd.bindElementArrayBuffer (some p.2.ibo) ∈ pre ∧
      ∀ c ∈ pre, GLCmd.drawCount c = none :=
  c3_render_one_draw_per_mesh sEx (by decide)

/-- C4 evaluation (the code bug): Unload on a scene holding one model and one
texture runs without throwing, and so does a second Unload on the result --
but while the models map ends empty both times, the textures map still holds
its entry after both calls, because the second teardown branch re-checks the
already nulled this.models instead of this.textures. -/
theorem c4_unload_twice_eval :
    SceneFields.unload sceneC4 = Except.ok sceneC4After ∧
    SceneFields.unload sceneC4After = Except.ok sceneC4After ∧
    mapCleared sceneC4After.models = true ∧
    mapCleared sceneC4After.textures = false :=
  ⟨rfl, rfl, rfl, rfl⟩

/-- C5: the AddModel onload handler with a 2xx status and a malformed json
payload fails with the logged asset error and returns the scene unchanged --
in particular the mesh map is identical, so there is no partial
registration. -/
theorem c5_addmodel_malformed (s : Scene) (id : String) (status fresh : Nat)
    (h1 : 199 < status) (h2 : status < 300) :
    (s.addModelOnload id status none fresh).1 = AddOutcome.assetError ∧
    (s.addModelOnload id status none fresh).2 = s ∧
    (s.addModelOnload id status none fresh).2.models = s.models := by
  rw [Scene.addModelOnload, if_pos ⟨h1, h2⟩]
  exact ⟨rfl, rfl, rfl⟩

/-- Witness for C5 at the concrete one-mesh scene, status 200. -/
theorem c5_witness :
    (sEx.addModelOnload "rock" 200 none 10).1 = AddOutcome.assetError ∧
    (sEx.addModelOnload "rock" 200 none 10).2 = sEx ∧
    (sEx.addModelOnload "rock" 200 none 10).2.models = sEx.models :=
  c5_addmodel_malformed sEx "rock" 200 10 (by norm_num) (by norm_num)

/-- Shared helper: Scene.prototype.Load on every failing build outcome logs the
diagnostic, does not invoke the callback, throws nothing, returns undefined,
leaves program/camera/matrix fields untouched, and has already reset the
models and textures maps to empty maps. -/
theorem sceneLoad_failed_spec (s : SceneFields) (o : BuildOutcome) (ho : o.failed = true) :
    (s.load o).logged ≠ [] ∧ (s.load o).callbackInvoked = false ∧
    (s.load o).thrown = none ∧ (s.load o).returnValue = none ∧
    (s.load o).scene.program = s.program ∧ (s.load o).scene.camera = s.camera ∧
    (s.load o).scene.viewMatrix = s.viewMatrix ∧ (s.load o).scene.projMatrix = s.projMatrix ∧
    (s.load o).scene.models = some [] ∧ (s.load o).scene.textures = some [] := by
  rcases o with ⟨v, f, l, va⟩
  cases v <;> cases f <;> cases l <;> cases va <;>
    simp_all [SceneFields.load, BuildOutcome.failed]

/-- Shared helper: the Material constructor on every failing build logs, throws
nothing, and still returns an instance to the caller. -/
theorem material_failed_spec (vsOk fsOk linkOk : Bool)
    (hm : (vsOk && fsOk && linkOk) = false) :
    (mkMaterial vsOk fsOk linkOk).logged ≠ [] ∧
    (mkMaterial vsOk fsOk linkOk).thrown = none ∧
    (mkMaterial vsOk fsOk linkOk).ctorReturnsInstance = true := by
  cases vsOk <;> cases fsOk <;> cases linkOk <;> simp_all [mkMaterial]

/-- C6 counterexample: a failed vertex compile in Scene.Load is logged but no
exception or error value reaches the caller of Load, and a failed Material
link is likewise only logged while the constructor still hands the caller an
instance -- so a failed build is not surfaced to the caller of the operation
that triggered it. -/
theorem c6_counterexample :
    BuildOutcome.failed ⟨false, true, true, true⟩ = true ∧
    (SceneFields.load sceneFresh ⟨false, true, true, true⟩).logged ≠ [] ∧
    ¬ (SceneFields.load sceneFresh ⟨false, true, true, true⟩).errorReachesCaller ∧
    (mkMaterial true true false).logged ≠ [] ∧
    (mkMaterial true true false).thrown = none ∧
    (mkMaterial true true false).ctorReturnsInstance = true := by
  refine ⟨rfl, ?_, ?_, ?_, rfl, rfl⟩
  · simp [SceneFields.load]
  · rintro (h | h) <;> exact h rfl
  · simp [mkMaterial]

/-- C6 (amended): every failed shader build attempt is logged to the console
and aborts the triggering operation early -- Scene.Load returns undefined
without invoking its completion callback and without establishing a program,
and the Material constructor still returns an instance -- but no exception or
error value reaches the caller. -/
theorem c6_build_errors_logged_not_raised (s : SceneFields) (o : BuildOutcome)
    (vsOk fsOk linkOk : Bool) (ho : o.failed = true)
    (hm : (vsOk && fsOk && linkOk) = false) :
    (s.load o).logged ≠ [] ∧ (s.load o).callbackInvoked = false ∧
    (s.load o).thrown = none ∧ (s.load o).returnValue = none ∧
    (s.load o).scene.program = s.program ∧
    (mkMaterial vsOk fsOk linkOk).logged ≠ [] ∧
    (mkMaterial vsOk fsOk linkOk).thrown = none ∧
    (mkMaterial vsOk fsOk linkOk).ctorReturnsInstance = true := by
  obtain ⟨l1, l2, l3, l4, l5, -, -, -, -, -⟩ := sceneLoad_failed_spec s o ho
  obtain ⟨m1, m2, m3⟩ := material_failed_spec vsOk fsOk linkOk hm
  exact ⟨l1, l2, l3, l4, l5, m1, m2, m3⟩

/-- Witness for C6 at a failed fragment compile and a failed Material vertex
compile. -/
theorem c6_witness :
    (SceneFields.load sceneFresh ⟨true, false, true, true⟩).logged ≠ [] ∧
    (SceneFields.load sceneFresh ⟨true, false, true, true⟩).callbackInvoked = false ∧
    (SceneFields.load sceneFresh ⟨true, false, true, true⟩).thrown = none ∧
    (SceneFields.load sceneFresh ⟨true, false, true, true⟩).returnValue = none ∧
    (SceneFields.load sceneFresh ⟨true, false, true, true⟩).scene.program =
      sceneFresh.program ∧
    (mkMaterial false true true).logged ≠ [] ∧
    (mkMaterial false true true).thrown = none ∧
    (mkMaterial false true true).ctorReturnsInstance = true :=
  c6_build_errors_logged_not_raised sceneFresh ⟨true, false, true, true⟩ false true true
    rfl rfl

/-- C7 counterexample: on a fresh scene whose models field is undefined, a Load
with a failing vertex compile still resets the models map to an empty map, so
the failed call does establish observable scene state. -/
theorem c7_counterexample :
    BuildOutcome.failed ⟨false, true, true, true⟩ = true ∧
    sceneFresh.models = none ∧
    (SceneFields.load sceneFresh ⟨false, true, true, true⟩).scene.models = some [] ∧
    (SceneFields.load sceneFresh ⟨false, true, true, true⟩).scene.models ≠
      sceneFresh.models := by
  refine ⟨rfl, rfl, rfl, ?_⟩
  simp [SceneFields.load, sceneFresh]

/-- C7 (amended): when the shader build fails, Load halts without invoking its
callback and establishes neither program, camera nor matrices (those fields
keep their prior values); however the models and textures maps have already
been reset to empty maps before compilation, so the failed call is not atomic
on the scene state. -/
theorem c7_load_failure_not_atomic (s : SceneFields) (o : BuildOutcome)
    (ho : o.failed = true) :
    (s.load o).callbackInvoked = false ∧
    (s.load o).scene.program = s.program ∧ (s.load o).scene.camera = s.camera ∧
    (s.load o).scene.viewMatrix = s.viewMatrix ∧
    (s.load o).scene.projMatrix = s.projMatrix ∧
    (s.load o).scene.models = some [] ∧ (s.load o).scene.textures = some [] := by
  obtain ⟨-, l2, -, -, l5, l6, l7, l8, l9, l10⟩ := sceneLoad_failed_spec s o ho
  exact ⟨l2, l5, l6, l7, l8, l9, l10⟩

/-- Witness for C7 at a loaded scene and a failing link step. -/
theorem c7_witness :
    (SceneFields.load sceneC4 ⟨true, true, false, true⟩).callbackInvoked = false ∧
    (SceneFields.load sceneC4 ⟨true, true, false, true⟩).scene.program =
      sceneC4.program ∧
    (SceneFields.load sceneC4 ⟨true, true, false, true⟩).scene.camera =
      sceneC4.camera ∧
    (SceneFields.load sceneC4 ⟨true, true, false, true⟩).scene.viewMatrix =
      sceneC4.viewMatrix ∧
    (SceneFields.load sceneC4 ⟨true, true, false, true⟩).scene.projMatrix =
      sceneC4.projMatrix ∧
    (SceneFields.load sceneC4 ⟨true, true, false, true⟩).scene.models = some [] ∧
    (SceneFields.load sceneC4 ⟨true, true, false, true⟩).scene.textures = some [] :=
  c7_load_failure_not_atomic sceneC4 ⟨true, true, false, true⟩ rfl

/-- C10: whenever both shaders compile and the program links and validates, the
renderer constructor throws a TypeError (me.uniforms.pointLights is assigned
while me.uniforms was never assigned), independent of the global scene, so no
renderer instance is ever fully constructed on the success path. -/
theorem c10_renderer_ctor_throws (o : BuildOutcome) (n : Nat)
    (h1 : o.vsOk = true) (h2 : o.fsOk = true) (h3 : o.linkOk = true)
    (h4 : o.validateOk = true) :
    rendererNew o n = RendererOutcome.threw JsErr.typeError := by
  rcases o with ⟨v, f, l, va⟩
  simp_all [rendererNew]

/-- Witness for C10 at the all-successful build outcome and two point lights. -/
theorem c10_witness :
    rendererNew ⟨true, true, true, true⟩ 2 = RendererOutcome.threw JsErr.typeError :=
  c10_renderer_ctor_throws ⟨true, true, true, true⟩ 2 rfl rfl rfl rfl

end Portfolio
